import Mathlib

/-!
Shallow embedding of the subscript helpers of
`src/nuitka/build/include/nuitka/helper/subscripts.hpp` (the Python-2 build,
where the conditionally compiled immutable-string fast path is active).

Modelling conventions.

The object model is external to the unit: a dynamic object is an abstract
value of a type parameter `Obj`, and every external collaborator (the type
query `Py_TYPE`, the exact-type checks, the raw list and string element
access, `INCREASE_REFCOUNT`, `BUILTIN_CHR`, `PyIndex_Check`,
`PyNumber_AsSsize_t`, `PySequence_GetItem`, `PyObject_DelItem` and the
`set-by-position` primitive) is a field of an environment `Env Obj`.

The pending error state is a single `Option PyErr` slot threaded through every
call.  A C function returning `PyObject *` yields `COutcome (Option Obj)`
together with the resulting error slot: `COutcome.ret none` is a normal return
of a NULL pointer, `COutcome.ret (some v)` a normal return of a handle, and
`COutcome.thrown e` models `throw _PythonException()`, whose constructor
fetches (and thereby clears) the pending error slot and carries it as `e`.
Hence after a `thrown` outcome the resulting error slot is `none`.
-/

structure PyErr where
  kind : String
  msg : String
deriving DecidableEq, Repr

/-- ErrState is the process-wide pending error slot: `none` means no error. -/
abbrev ErrState := Option PyErr

/-- COutcome is the outcome of a C function: a normal return of a value, or a
thrown `_PythonException` carrying the fetched pending error. -/
inductive COutcome (A : Type) where
  | ret : A → COutcome A
  | thrown : Option PyErr → COutcome A
deriving DecidableEq, Repr

/-- MappingMethods embeds `PyMappingMethods`: each slot is `none` when the C
slot is a null pointer.  `mp_subscript` returns a possibly NULL object and may
set the pending error; `mp_ass_subscript` returns an int status. -/
structure MappingMethods (Obj : Type) where
  mp_subscript : Option (Obj → Obj → ErrState → Option Obj × ErrState)
  mp_ass_subscript : Option (Obj → Obj → Obj → ErrState → Int × ErrState)

/-- SequenceMethods embeds `PySequenceMethods`.  The unit under study never
calls the slots directly (positional access goes through the external
`PySequence_GetItem` and `SEQUENCE_SETITEM` collaborators); it only tests the
slots for presence, so presence flags suffice. -/
structure SequenceMethods where
  sq_item : Bool
  sq_ass_item : Bool
deriving DecidableEq, Repr

/-- TypeObject embeds the part of `PyTypeObject` the unit reads. -/
structure TypeObject (Obj : Type) where
  tp_name : String
  tp_as_mapping : Option (MappingMethods Obj)
  tp_as_sequence : Option SequenceMethods

/-- Env bundles the external collaborators of the unit: the object model,
ownership, and the generic item primitives of the host runtime. -/
structure Env (Obj : Type) where
  typeOf : Obj → TypeObject Obj
  isListExact : Obj → Bool
  listSize : Obj → Int
  listItem : Obj → Int → Obj
  isStringExact : Obj → Bool
  stringSize : Obj → Int
  stringChar : Obj → Int → Char
  incref : Obj → Obj
  builtinChr : Char → Obj
  pyIndexCheck : Obj → Bool
  nativeIndexOf : Obj → Option Int
  pyNumberAsSsize : Obj → ErrState → Int × ErrState
  pySequenceGetItem : Obj → Int → ErrState → Option Obj × ErrState
  setByPosition : Obj → Int → Obj → ErrState → Int × ErrState
  pyObjectDelItem : Obj → Obj → ErrState → Int × ErrState

/-- mpSubscriptOf is the C guard `m != NULL and m->mp_subscript != NULL` of the
read paths, returning the slot when both hold. -/
def mpSubscriptOf {Obj : Type} (t : TypeObject Obj) :
    Option (Obj → Obj → ErrState → Option Obj × ErrState) :=
  match t.tp_as_mapping with
  | some m => m.mp_subscript
  | none => none

/-- mpAssSubscriptOf is the C guard
`mapping_methods != NULL and mapping_methods->mp_ass_subscript` of the write
path, returning the slot when both hold. -/
def mpAssSubscriptOf {Obj : Type} (t : TypeObject Obj) :
    Option (Obj → Obj → Obj → ErrState → Int × ErrState) :=
  match t.tp_as_mapping with
  | some m => m.mp_ass_subscript
  | none => none

/-- checkResult embeds the common tail of the read entry points:
`if (unlikely(result == NULL)) throw _PythonException(); return result;`. -/
def checkResult {Obj : Type} (r : Option Obj × ErrState) :
    COutcome (Option Obj) × ErrState :=
  match r with
  | (none, s) => (COutcome.thrown s, none)
  | (some v, s) => (COutcome.ret (some v), s)

/-- normalizeIndex is the index-normalisation logic inlined twice in
`LOOKUP_SUBSCRIPT_CONST`: a negative index has the length added after a lower
bound check, a non-negative index is upper-bound checked; `none` is the
out-of-range failure (the caller selects the message). -/
def normalizeIndex (size i : Int) : Option Int :=
  if i < 0 then
    if -i > size then none else some (i + size)
  else
    if i ≥ size then none else some i

/-- Modelled from the spec: the helper `CONVERT_TO_INDEX` called by
`_LOOKUP_SUBSCRIPT` is repository code that is not part of the provided
source.  Per the spec it converts a key to a native index and fails with
`IndexOutOfRange` when the conversion overflows the host index representation
(the exact message is not specified by the spec). -/
def CONVERT_TO_INDEX {Obj : Type} (E : Env Obj) (key : Obj) (s : ErrState) :
    COutcome Int × ErrState :=
  match E.nativeIndexOf key with
  | some i => (COutcome.ret i, s)
  | none =>
      (COutcome.thrown (some { kind := "IndexError"
                               msg := "cannot fit index into a native size" }),
       none)

/-- Modelled from the spec: the helper `THROW_IF_ERROR_OCCURED` called by
`_SET_SUBSCRIPT` is repository code that is not part of the provided source.
Per the spec (Error Translator) it observes the pending error state and raises
through the propagation channel exactly when it is set, clearing the slot as
part of converting it into a propagating error. -/
def THROW_IF_ERROR_OCCURED (s : ErrState) : COutcome Unit × ErrState :=
  match s with
  | some e => (COutcome.thrown (some e), none)
  | none => (COutcome.ret (), none)

/-- Modelled from the spec: the helper `SEQUENCE_SETITEM` called by
`_SET_SUBSCRIPT` is repository code that is not part of the provided source.
Per the spec it invokes the `set-by-position` collaborator with an already
converted index and translates a failure status into a raised error. -/
def SEQUENCE_SETITEM {Obj : Type} (E : Env Obj) (target : Obj) (idx : Int)
    (value : Obj) (s : ErrState) : COutcome Unit × ErrState :=
  let r := E.setByPosition target idx value s
  if r.1 = -1 then (COutcome.thrown r.2, none) else (COutcome.ret (), r.2)

/-- LOOKUP_SUBSCRIPT_CONST embeds the constant-index read entry point of the
source: the list and string fast paths inside the mapping-capable branch, the
generic mapping call with the original key, the sequence branch with the
pre-resolved integer index, and the final branch which executes
`return PyErr_Format(...)` — a normal return of NULL with the error slot set
— followed by an unreachable `throw _PythonException();`. -/
def LOOKUP_SUBSCRIPT_CONST {Obj : Type} (E : Env Obj)
    (source const_subscript : Obj) (int_subscript : Int) (s : ErrState) :
    COutcome (Option Obj) × ErrState :=
  match mpSubscriptOf (E.typeOf source) with
  | some mp =>
    if E.isListExact source then
      match normalizeIndex (E.listSize source) int_subscript with
      | none =>
          (COutcome.thrown (some { kind := "IndexError"
                                   msg := "list index out of range" }), none)
      | some idx => (COutcome.ret (some (E.incref (E.listItem source idx))), s)
    else if E.isStringExact source then
      match normalizeIndex (E.stringSize source) int_subscript with
      | none =>
          (COutcome.thrown (some { kind := "IndexError"
                                   msg := "string index out of range" }), none)
      | some idx =>
          (COutcome.ret (some (E.builtinChr (E.stringChar source idx))), s)
    else
      checkResult (mp source const_subscript s)
  | none =>
    match (E.typeOf source).tp_as_sequence with
    | some _ => checkResult (E.pySequenceGetItem source int_subscript s)
    | none =>
      (COutcome.ret none,
       some { kind := "TypeError"
              msg := "\x27" ++ (E.typeOf source).tp_name ++
                     "\x27 object is unsubscriptable" })

/-- LOOKUP_SUBSCRIPT embeds `_LOOKUP_SUBSCRIPT`, the generic read entry point:
mapping slot first with the unmodified key, then the sequence branch (index
conversion, or the sequence-index type error when `sq_item` is present, or the
unsubscriptable `return PyErr_Format(...)` NULL return when it is not), and
the same NULL-returning unsubscriptable branch when neither table exists. -/
def LOOKUP_SUBSCRIPT {Obj : Type} (E : Env Obj) (source subscript : Obj)
    (s : ErrState) : COutcome (Option Obj) × ErrState :=
  match mpSubscriptOf (E.typeOf source) with
  | some mp => checkResult (mp source subscript s)
  | none =>
    match (E.typeOf source).tp_as_sequence with
    | some sq =>
      if E.pyIndexCheck subscript then
        match CONVERT_TO_INDEX E subscript s with
        | (COutcome.ret idx, s2) =>
            checkResult (E.pySequenceGetItem source idx s2)
        | (COutcome.thrown e, s2) => (COutcome.thrown e, s2)
      else if sq.sq_item then
        (COutcome.thrown
           (some { kind := "TypeError"
                   msg := "sequence index must be integer, not \x27" ++
                          (E.typeOf subscript).tp_name ++ "\x27" }), none)
      else
        (COutcome.ret none,
         some { kind := "TypeError"
                msg := "\x27" ++ (E.typeOf source).tp_name ++
                       "\x27 object is unsubscriptable" })
    | none =>
      (COutcome.ret none,
       some { kind := "TypeError"
              msg := "\x27" ++ (E.typeOf source).tp_name ++
                     "\x27 object is unsubscriptable" })

/-- SET_SUBSCRIPT embeds `_SET_SUBSCRIPT`: the assignment mapping slot first,
then the sequence branch (native index conversion by `PyNumber_AsSsize_t`
with the `-1`-and-pending-error convention, then `SEQUENCE_SETITEM`), the
sequence-index type error when `sq_ass_item` is present, and the
does-not-support-item-assignment error otherwise; all error branches here
genuinely throw. -/
def SET_SUBSCRIPT {Obj : Type} (E : Env Obj) (value target subscript : Obj)
    (s : ErrState) : COutcome Unit × ErrState :=
  match mpAssSubscriptOf (E.typeOf target) with
  | some mpa =>
    let r := mpa target subscript value s
    if r.1 = -1 then (COutcome.thrown r.2, none) else (COutcome.ret (), r.2)
  | none =>
    match (E.typeOf target).tp_as_sequence with
    | some sq =>
      if E.pyIndexCheck subscript then
        let r := E.pyNumberAsSsize subscript s
        if r.1 = -1 then
          match THROW_IF_ERROR_OCCURED r.2 with
          | (COutcome.thrown e, s3) => (COutcome.thrown e, s3)
          | (COutcome.ret _, s3) => SEQUENCE_SETITEM E target r.1 value s3
        else
          SEQUENCE_SETITEM E target r.1 value r.2
      else if sq.sq_ass_item then
        (COutcome.thrown
           (some { kind := "TypeError"
                   msg := "sequence index must be integer, not \x27" ++
                          (E.typeOf subscript).tp_name ++ "\x27" }), none)
      else
        (COutcome.thrown
           (some { kind := "TypeError"
                   msg := "\x27" ++ (E.typeOf target).tp_name ++
                          "\x27 object does not support item assignment" }),
         none)
    | none =>
      (COutcome.thrown
         (some { kind := "TypeError"
                 msg := "\x27" ++ (E.typeOf target).tp_name ++
                        "\x27 object does not support item assignment" }),
       none)

/-- DEL_SUBSCRIPT embeds `_DEL_SUBSCRIPT`: a single call to the generic
`PyObject_DelItem` collaborator, throwing exactly on a `-1` status. -/
def DEL_SUBSCRIPT {Obj : Type} (E : Env Obj) (target subscript : Obj)
    (s : ErrState) : COutcome Unit × ErrState :=
  let r := E.pyObjectDelItem target subscript s
  if r.1 = -1 then (COutcome.thrown r.2, none) else (COutcome.ret (), r.2)

/-! Concrete environments over `Obj := Nat`, used to evaluate the embedded
operations on explicit inputs. -/

/-- tyNeither is a type with neither a mapping nor a sequence table. -/
def tyNeither : TypeObject Nat :=
  { tp_name := "foo", tp_as_mapping := none, tp_as_sequence := none }

/-- baseEnv is a neutral environment: every object has type `tyNeither`, all
collaborators succeed trivially. -/
def baseEnv : Env Nat :=
  { typeOf := fun _ => tyNeither
    isListExact := fun _ => false
    listSize := fun _ => 0
    listItem := fun _ _ => 0
    isStringExact := fun _ => false
    stringSize := fun _ => 0
    stringChar := fun _ _ => 'a'
    incref := fun o => o
    builtinChr := fun _ => 0
    pyIndexCheck := fun _ => false
    nativeIndexOf := fun _ => some 0
    pyNumberAsSsize := fun _ s => (0, s)
    pySequenceGetItem := fun _ _ s => (none, s)
    setByPosition := fun _ _ _ s => (0, s)
    pyObjectDelItem := fun _ _ s => (0, s) }

/-- tySeqOnly is a type with no mapping table and a sequence table whose item
slots are both present. -/
def tySeqOnly : TypeObject Nat :=
  { tp_name := "seqonly"
    tp_as_mapping := none
    tp_as_sequence := some { sq_item := true, sq_ass_item := true } }

/-- envSeqEcho gives every object the type `tySeqOnly` and a positional getter
that returns the requested index itself, making the index argument of the
call observable in the result. -/
def envSeqEcho : Env Nat :=
  { baseEnv with
    typeOf := fun _ => tySeqOnly
    pySequenceGetItem := fun _ i s => (some i.toNat, s) }

/-- mapMp is a mapping get slot returning a value derived from the key. -/
def mapMp : Nat → Nat → ErrState → Option Nat × ErrState :=
  fun _ k s => (some (k + 100), s)

/-- mapSet is a mapping assignment slot that always succeeds. -/
def mapSet : Nat → Nat → Nat → ErrState → Int × ErrState :=
  fun _ _ _ s => (0, s)

/-- tyMap is a mapping-capable type with no sequence table. -/
def tyMap : TypeObject Nat :=
  { tp_name := "map"
    tp_as_mapping := some { mp_subscript := some mapMp
                            mp_ass_subscript := some mapSet }
    tp_as_sequence := none }

/-- envMap gives every object the mapping-capable type `tyMap`. -/
def envMap : Env Nat :=
  { baseEnv with typeOf := fun _ => tyMap }

/-- listMp is the mapping get slot carried by the concrete list type; the list
fast path bypasses it. -/
def listMp : Nat → Nat → ErrState → Option Nat × ErrState :=
  fun _ _ s => (none, s)

/-- tyList is the exact built-in list type: mapping table with a get slot and
a sequence table. -/
def tyList : TypeObject Nat :=
  { tp_name := "list"
    tp_as_mapping := some { mp_subscript := some listMp
                            mp_ass_subscript := none }
    tp_as_sequence := some { sq_item := true, sq_ass_item := true } }

/-- envList realises the spec scenario list `[10, 20, 30]` as object `0`. -/
def envList : Env Nat :=
  { baseEnv with
    typeOf := fun _ => tyList
    isListExact := fun _ => true
    listSize := fun _ => 3
    listItem := fun _ i => if i = 0 then 10 else if i = 1 then 20 else 30 }

/-- tySeqEmpty is a type whose sequence table is present but has neither item
slot, and no mapping table. -/
def tySeqEmpty : TypeObject Nat :=
  { tp_name := "seqempty"
    tp_as_mapping := none
    tp_as_sequence := some { sq_item := false, sq_ass_item := false } }

/-- tyStr is the type used for key objects in counterexamples. -/
def tyStr : TypeObject Nat :=
  { tp_name := "str", tp_as_mapping := none, tp_as_sequence := none }

/-- envSeqEmpty types object `0` with `tySeqEmpty` and every other object with
`tyStr`; no key is index-like. -/
def envSeqEmpty : Env Nat :=
  { baseEnv with
    typeOf := fun n => if n = 0 then tySeqEmpty else tyStr }

/-- envSeqConvErr makes every key index-like but makes the native-size
conversion fail with a pending IndexError, as `PyNumber_AsSsize_t` does on
overflow. -/
def envSeqConvErr : Env Nat :=
  { baseEnv with
    typeOf := fun _ => tySeqOnly
    pyIndexCheck := fun _ => true
    pyNumberAsSsize := fun _ _ =>
      (-1, some { kind := "IndexError"
                  msg := "cannot fit into an index-sized integer" }) }

/-- envSeqMinusOne makes every key index-like and genuinely denote the native
index `-1`: the conversion returns `-1` without any pending error. -/
def envSeqMinusOne : Env Nat :=
  { baseEnv with
    typeOf := fun _ => tySeqOnly
    pyIndexCheck := fun _ => true
    pyNumberAsSsize := fun _ s => (-1, s)
    setByPosition := fun _ i _ s => (if i = -1 then 0 else -1, s) }

/-! Claim theorems. -/

/-- C1: the claim says a failed subscript operation always raises through the
propagation channel and never returns to the caller; this theorem evaluates
the code at the failing input and shows that a Get on a source with neither
capability instead returns normally — the outcome is a normal return of a
NULL handle with the TypeMismatch left pending, because the source executes
`return PyErr_Format(...)` and the `throw` after it is unreachable. -/
theorem c1_get_returns_null_instead_of_raising :
    LOOKUP_SUBSCRIPT baseEnv 0 1 none =
      (COutcome.ret none,
       some { kind := "TypeError"
              msg := "\x27foo\x27 object is unsubscriptable" })
    ∧ LOOKUP_SUBSCRIPT_CONST baseEnv 0 1 0 none =
      (COutcome.ret none,
       some { kind := "TypeError"
              msg := "\x27foo\x27 object is unsubscriptable" }) :=
  ⟨rfl, rfl⟩

/-- C2 counterexample: the claim says the constant-index read on a source
whose exact type is neither list nor string never consults the pre-resolved
integer index; on a mapping-incapable, sequence-capable source the sequence
branch passes the pre-resolved integer to the positional getter, so the result
depends on that integer: with the same source and generic key, resolved
indices 5 and 6 give different results. -/
theorem c2_const_lookup_uses_int_counterexample :
    envSeqEcho.isListExact 0 = false ∧ envSeqEcho.isStringExact 0 = false ∧
    LOOKUP_SUBSCRIPT_CONST envSeqEcho 0 1 5 none =
      (COutcome.ret (some 5), none) ∧
    LOOKUP_SUBSCRIPT_CONST envSeqEcho 0 1 6 none =
      (COutcome.ret (some 6), none) ∧
    LOOKUP_SUBSCRIPT_CONST envSeqEcho 0 1 5 none ≠
      LOOKUP_SUBSCRIPT_CONST envSeqEcho 0 1 6 none := by
  refine ⟨rfl, rfl, rfl, rfl, ?_⟩
  decide

/-- C2 amended: on a source whose exact type is neither list nor string, the
constant-index read delegates with the original generic key whenever the
mapping get slot is present; when the mapping get slot is absent and a
sequence table is present, it instead calls the positional getter with the
pre-resolved integer index. -/
theorem c2_amended_const_lookup_delegation {Obj : Type} (E : Env Obj)
    (source key : Obj) (i : Int) (s : ErrState)
    (hL : E.isListExact source = false) (hS : E.isStringExact source = false) :
    (∀ mp, mpSubscriptOf (E.typeOf source) = some mp →
      LOOKUP_SUBSCRIPT_CONST E source key i s = checkResult (mp source key s))
    ∧ (mpSubscriptOf (E.typeOf source) = none →
       ∀ sq, (E.typeOf source).tp_as_sequence = some sq →
      LOOKUP_SUBSCRIPT_CONST E source key i s =
        checkResult (E.pySequenceGetItem source i s)) := by
  constructor
  · intro mp hm
    simp [LOOKUP_SUBSCRIPT_CONST, hm, hL, hS]
  · intro hm sq hsq
    simp [LOOKUP_SUBSCRIPT_CONST, hm, hsq]

/-- C2 amended, witness: on the mapping-capable environment the constant-index
read delegates to the mapping slot with the generic key 7. -/
theorem c2_amended_const_lookup_delegation_witness :
    LOOKUP_SUBSCRIPT_CONST envMap 0 7 5 none = checkResult (mapMp 0 7 none) :=
  (c2_amended_const_lookup_delegation envMap 0 7 5 none rfl rfl).1 mapMp rfl

/-- C3: for an exact list source of length N, an index in `[-N, N)` returns
the element at position `i` (or `i + N` when negative) passed through the
ownership increment, and any index outside that range throws an IndexError
with message "list index out of range". -/
theorem c3_list_fast_path {Obj : Type} (E : Env Obj) (S k : Obj) (i N : Int)
    (s : ErrState) (mp : Obj → Obj → ErrState → Option Obj × ErrState)
    (hm : mpSubscriptOf (E.typeOf S) = some mp)
    (hL : E.isListExact S = true) (hN : E.listSize S = N) (h0 : 0 ≤ N) :
    (-N ≤ i ∧ i < N →
      LOOKUP_SUBSCRIPT_CONST E S k i s =
        (COutcome.ret
           (some (E.incref (E.listItem S (if 0 ≤ i then i else i + N)))), s))
    ∧ (i < -N ∨ N ≤ i →
      LOOKUP_SUBSCRIPT_CONST E S k i s =
        (COutcome.thrown (some { kind := "IndexError"
                                 msg := "list index out of range" }), none)) := by
  constructor
  · rintro ⟨h1, h2⟩
    have hn : normalizeIndex (E.listSize S) i =
        some (if 0 ≤ i then i else i + N) := by
      rw [hN]
      unfold normalizeIndex
      by_cases hc : i < 0
      · rw [if_pos hc, if_neg (show ¬(-i > N) by omega),
            if_neg (show ¬(0 ≤ i) by omega)]
      · rw [if_neg hc, if_neg (show ¬(i ≥ N) by omega),
            if_pos (show 0 ≤ i by omega)]
    simp [LOOKUP_SUBSCRIPT_CONST, hm, hL, hn]
  · intro h
    have hn : normalizeIndex (E.listSize S) i = none := by
      rw [hN]
      unfold normalizeIndex
      rcases h with h | h
      · rw [if_pos (show i < 0 by omega), if_pos (show -i > N by omega)]
      · rw [if_neg (show ¬(i < 0) by omega), if_pos (show i ≥ N by omega)]
    simp [LOOKUP_SUBSCRIPT_CONST, hm, hL, hn]

/-- C3 witness: on the concrete list `[10, 20, 30]`, index `-1` returns the
element 30 and index 3 throws the list range error. -/
theorem c3_list_fast_path_witness :
    LOOKUP_SUBSCRIPT_CONST envList 0 1 (-1) none =
      (COutcome.ret
         (some (envList.incref
            (envList.listItem 0 (if 0 ≤ (-1 : Int) then -1 else -1 + 3)))),
       none)
    ∧ LOOKUP_SUBSCRIPT_CONST envList 0 1 3 none =
      (COutcome.thrown (some { kind := "IndexError"
                               msg := "list index out of range" }), none) :=
  ⟨(c3_list_fast_path envList 0 1 (-1) 3 none listMp rfl rfl rfl
      (by decide)).1 ⟨by decide, by decide⟩,
   (c3_list_fast_path envList 0 1 3 3 none listMp rfl rfl rfl
      (by decide)).2 (Or.inr (by decide))⟩

/-- C9: index normalisation is idempotent: an already absolute in-range index
is returned unchanged, and normalising any output of the normaliser again is
a no-op. -/
theorem c9_normalize_idempotent (N i : Int) :
    (0 ≤ i → i < N → normalizeIndex N i = some i)
    ∧ (∀ j, normalizeIndex N i = some j → normalizeIndex N j = some j) := by
  constructor
  · intro h1 h2
    unfold normalizeIndex
    rw [if_neg (show ¬(i < 0) by omega), if_neg (show ¬(i ≥ N) by omega)]
  · intro j hj
    have hb : 0 ≤ j ∧ j < N := by
      unfold normalizeIndex at hj
      split_ifs at hj <;> simp_all
      all_goals omega
    obtain ⟨hb1, hb2⟩ := hb
    unfold normalizeIndex
    rw [if_neg (show ¬(j < 0) by omega), if_neg (show ¬(j ≥ N) by omega)]

/-- C9 witness: normalising the in-range absolute index 3 against length 5
returns it unchanged. -/
theorem c9_normalize_idempotent_witness : normalizeIndex 5 3 = some 3 :=
  (c9_normalize_idempotent 5 3).1 (by decide) (by decide)

/-- C4: the generic read dispatcher tries capabilities in a fixed order: a
present mapping get slot is invoked with the unmodified key for every key;
otherwise a present sequence table routes through the sequence branch; with
neither table the call produces no value and the recorded failure is the
TypeMismatch naming the source type as unsubscriptable. -/
theorem c4_generic_get_dispatch_order {Obj : Type} (E : Env Obj)
    (source key : Obj) (s : ErrState) :
    (∀ mp, mpSubscriptOf (E.typeOf source) = some mp →
      LOOKUP_SUBSCRIPT E source key s = checkResult (mp source key s))
    ∧ (∀ sq, mpSubscriptOf (E.typeOf source) = none →
       (E.typeOf source).tp_as_sequence = some sq →
      LOOKUP_SUBSCRIPT E source key s =
        (if E.pyIndexCheck key then
          match CONVERT_TO_INDEX E key s with
          | (COutcome.ret idx, s2) =>
              checkResult (E.pySequenceGetItem source idx s2)
          | (COutcome.thrown e, s2) => (COutcome.thrown e, s2)
         else if sq.sq_item then
          (COutcome.thrown
             (some { kind := "TypeError"
                     msg := "sequence index must be integer, not \x27" ++
                            (E.typeOf key).tp_name ++ "\x27" }), none)
         else
          (COutcome.ret none,
           some { kind := "TypeError"
                  msg := "\x27" ++ (E.typeOf source).tp_name ++
                         "\x27 object is unsubscriptable" })))
    ∧ (mpSubscriptOf (E.typeOf source) = none →
       (E.typeOf source).tp_as_sequence = none →
      LOOKUP_SUBSCRIPT E source key s =
        (COutcome.ret none,
         some { kind := "TypeError"
                msg := "\x27" ++ (E.typeOf source).tp_name ++
                       "\x27 object is unsubscriptable" })) := by
  refine ⟨?_, ?_, ?_⟩
  · intro mp hm
    simp [LOOKUP_SUBSCRIPT, hm]
  · intro sq hm hsq
    simp [LOOKUP_SUBSCRIPT, hm, hsq]
  · intro hm hsq
    simp [LOOKUP_SUBSCRIPT, hm, hsq]

/-- C4 witness: on the mapping-capable environment the generic read invokes
the mapping slot with the unmodified key 7, even though 7 is not index-like
there. -/
theorem c4_generic_get_dispatch_order_witness :
    LOOKUP_SUBSCRIPT envMap 0 7 none = checkResult (mapMp 0 7 none) :=
  (c4_generic_get_dispatch_order envMap 0 7 none).1 mapMp rfl

/-- C5 counterexample: the claim says every sequence-capable, non-mapping
target rejects a non-index key with the sequence-index TypeMismatch; on a
target whose sequence table is present but has neither item slot, Get instead
leaves the unsubscriptable TypeMismatch pending with a NULL return, and Set
throws the does-not-support-item-assignment TypeMismatch. -/
theorem c5_nonindex_key_counterexample :
    envSeqEmpty.pyIndexCheck 1 = false ∧
    (envSeqEmpty.typeOf 0).tp_as_sequence =
      some { sq_item := false, sq_ass_item := false } ∧
    mpSubscriptOf (envSeqEmpty.typeOf 0) = none ∧
    mpAssSubscriptOf (envSeqEmpty.typeOf 0) = none ∧
    LOOKUP_SUBSCRIPT envSeqEmpty 0 1 none =
      (COutcome.ret none,
       some { kind := "TypeError"
              msg := "\x27seqempty\x27 object is unsubscriptable" }) ∧
    SET_SUBSCRIPT envSeqEmpty 2 0 1 none =
      (COutcome.thrown
         (some { kind := "TypeError"
                 msg := "\x27seqempty\x27 object does not support item assignment" }),
       none) ∧
    LOOKUP_SUBSCRIPT envSeqEmpty 0 1 none ≠
      (COutcome.thrown
         (some { kind := "TypeError"
                 msg := "sequence index must be integer, not \x27str\x27" }),
       none) ∧
    SET_SUBSCRIPT envSeqEmpty 2 0 1 none ≠
      (COutcome.thrown
         (some { kind := "TypeError"
                 msg := "sequence index must be integer, not \x27str\x27" }),
       none) := by
  refine ⟨rfl, rfl, rfl, rfl, rfl, rfl, ?_, ?_⟩ <;> decide

/-- C5 amended: for a target with a sequence table, no mapping slot for the
operation, and a non-index key, Get throws the sequence-index TypeMismatch
naming the key type whenever the positional get slot is present, and Set
throws it whenever the positional set slot is present. -/
theorem c5_amended_nonindex_key {Obj : Type} (E : Env Obj)
    (value target key : Obj) (s : ErrState) (sq : SequenceMethods)
    (hs : (E.typeOf target).tp_as_sequence = some sq)
    (hk : E.pyIndexCheck key = false) :
    (mpSubscriptOf (E.typeOf target) = none → sq.sq_item = true →
      LOOKUP_SUBSCRIPT E target key s =
        (COutcome.thrown
           (some { kind := "TypeError"
                   msg := "sequence index must be integer, not \x27" ++
                          (E.typeOf key).tp_name ++ "\x27" }), none))
    ∧ (mpAssSubscriptOf (E.typeOf target) = none → sq.sq_ass_item = true →
      SET_SUBSCRIPT E value target key s =
        (COutcome.thrown
           (some { kind := "TypeError"
                   msg := "sequence index must be integer, not \x27" ++
                          (E.typeOf key).tp_name ++ "\x27" }), none)) := by
  constructor
  · intro hm hi
    simp [LOOKUP_SUBSCRIPT, hm, hs, hk, hi]
  · intro hm hi
    simp [SET_SUBSCRIPT, hm, hs, hk, hi]

/-- C5 amended, witness: on the sequence-only environment with both item slots
present and the non-index key 1, Get and Set both throw the sequence-index
TypeMismatch naming the key type. -/
theorem c5_amended_nonindex_key_witness :
    LOOKUP_SUBSCRIPT envSeqEcho 0 1 none =
      (COutcome.thrown
         (some { kind := "TypeError"
                 msg := "sequence index must be integer, not \x27seqonly\x27" }),
       none)
    ∧ SET_SUBSCRIPT envSeqEcho 2 0 1 none =
      (COutcome.thrown
         (some { kind := "TypeError"
                 msg := "sequence index must be integer, not \x27seqonly\x27" }),
       none) :=
  ⟨(c5_amended_nonindex_key envSeqEcho 2 0 1 none
      { sq_item := true, sq_ass_item := true } rfl rfl).1 rfl rfl,
   (c5_amended_nonindex_key envSeqEcho 2 0 1 none
      { sq_item := true, sq_ass_item := true } rfl rfl).2 rfl rfl⟩

/-- C6: on a target with a sequence table and no assignment mapping slot, with
an index-like key, Set raises the pending IndexOutOfRange when the native
index conversion fails (the `-1` with pending IndexError convention of the
conversion collaborator), and on a successful conversion it invokes the
set-by-position step with the converted index and the value. -/
theorem c6_set_sequence_index_conversion {Obj : Type} (E : Env Obj)
    (value target key : Obj) (s : ErrState) (sq : SequenceMethods)
    (hm : mpAssSubscriptOf (E.typeOf target) = none)
    (hs : (E.typeOf target).tp_as_sequence = some sq)
    (hi : E.pyIndexCheck key = true) :
    (∀ m, E.pyNumberAsSsize key s = (-1, some { kind := "IndexError", msg := m }) →
      SET_SUBSCRIPT E value target key s =
        (COutcome.thrown (some { kind := "IndexError", msg := m }), none))
    ∧ (∀ v s2, E.pyNumberAsSsize key s = (v, s2) → (v ≠ -1 ∨ s2 = none) →
      SET_SUBSCRIPT E value target key s =
        SEQUENCE_SETITEM E target v value s2) := by
  constructor
  · intro m hconv
    simp [SET_SUBSCRIPT, hm, hs, hi, hconv, THROW_IF_ERROR_OCCURED]
  · rintro v s2 hconv (hv | hs2)
    · simp [SET_SUBSCRIPT, hm, hs, hi, hconv, hv]
    · subst hs2
      by_cases hv : v = -1
      · subst hv
        simp [SET_SUBSCRIPT, hm, hs, hi, hconv, THROW_IF_ERROR_OCCURED]
      · simp [SET_SUBSCRIPT, hm, hs, hi, hconv, hv]

/-- C6 witness: when the native index conversion of the key overflows (a `-1`
status with a pending IndexError), Set raises that IndexOutOfRange. -/
theorem c6_set_sequence_index_conversion_witness :
    SET_SUBSCRIPT envSeqConvErr 5 0 1 none =
      (COutcome.thrown
         (some { kind := "IndexError"
                 msg := "cannot fit into an index-sized integer" }), none) :=
  (c6_set_sequence_index_conversion envSeqConvErr 5 0 1 none
      { sq_item := true, sq_ass_item := true } rfl rfl rfl).1
    "cannot fit into an index-sized integer" rfl

/-- C7: on a target whose type has neither an assignment mapping slot nor a
sequence table, Set throws the TypeMismatch naming the target type as not
supporting item assignment, for every key and value. -/
theorem c7_set_neither_capability {Obj : Type} (E : Env Obj)
    (value target key : Obj) (s : ErrState)
    (hm : mpAssSubscriptOf (E.typeOf target) = none)
    (hs : (E.typeOf target).tp_as_sequence = none) :
    SET_SUBSCRIPT E value target key s =
      (COutcome.thrown
         (some { kind := "TypeError"
                 msg := "\x27" ++ (E.typeOf target).tp_name ++
                        "\x27 object does not support item assignment" }),
       none) := by
  simp [SET_SUBSCRIPT, hm, hs]

/-- C7 witness: on the capability-free environment, Set throws the
does-not-support-item-assignment TypeMismatch naming the target type. -/
theorem c7_set_neither_capability_witness :
    SET_SUBSCRIPT baseEnv 2 0 1 none =
      (COutcome.thrown
         (some { kind := "TypeError"
                 msg := "\x27foo\x27 object does not support item assignment" }),
       none) :=
  c7_set_neither_capability baseEnv 2 0 1 none rfl rfl

/-- C8: Del inspects no capability tables — its result is unchanged under any
change of environment that keeps the generic delete collaborator — it returns
normally exactly when that collaborator reports a status other than `-1`, and
on a `-1` status it raises, carrying the pending error the collaborator
recorded. -/
theorem c8_del_single_collaborator {Obj : Type} (E E2 : Env Obj)
    (target key : Obj) (s : ErrState)
    (h : E.pyObjectDelItem = E2.pyObjectDelItem) :
    DEL_SUBSCRIPT E target key s = DEL_SUBSCRIPT E2 target key s
    ∧ ((DEL_SUBSCRIPT E target key s).1 = COutcome.ret () ↔
        (E.pyObjectDelItem target key s).1 ≠ -1)
    ∧ ((E.pyObjectDelItem target key s).1 = -1 →
        DEL_SUBSCRIPT E target key s =
          (COutcome.thrown (E.pyObjectDelItem target key s).2, none)) := by
  refine ⟨by simp [DEL_SUBSCRIPT, h], ?_, ?_⟩
  · unfold DEL_SUBSCRIPT
    by_cases hc : (E.pyObjectDelItem target key s).1 = -1 <;> simp [hc]
  · intro hc
    simp [DEL_SUBSCRIPT, hc]

/-- C8 witness: the capability-free environment and the mapping-capable
environment share the delete collaborator, so Del agrees on them and returns
normally since the collaborator reports success. -/
theorem c8_del_single_collaborator_witness :
    DEL_SUBSCRIPT baseEnv 0 1 none = DEL_SUBSCRIPT envMap 0 1 none
    ∧ ((DEL_SUBSCRIPT baseEnv 0 1 none).1 = COutcome.ret () ↔
        (baseEnv.pyObjectDelItem 0 1 none).1 ≠ -1) :=
  ⟨(c8_del_single_collaborator baseEnv envMap 0 1 none rfl).1,
   (c8_del_single_collaborator baseEnv envMap 0 1 none rfl).2.1⟩

/-- C10: in the sequence branch of Set, a `-1` from the native index
conversion raises exactly when a pending error was set by the conversion; a
key genuinely denoting index `-1` (no pending error) proceeds to the
set-by-position step with index `-1`. -/
theorem c10_set_minus_one_disambiguation {Obj : Type} (E : Env Obj)
    (value target key : Obj) (s s2 : ErrState) (sq : SequenceMethods)
    (hm : mpAssSubscriptOf (E.typeOf target) = none)
    (hs : (E.typeOf target).tp_as_sequence = some sq)
    (hi : E.pyIndexCheck key = true)
    (hconv : E.pyNumberAsSsize key s = (-1, s2)) :
    (∀ e, s2 = some e →
      SET_SUBSCRIPT E value target key s = (COutcome.thrown (some e), none))
    ∧ (s2 = none →
      SET_SUBSCRIPT E value target key s =
        SEQUENCE_SETITEM E target (-1) value none) := by
  constructor
  · intro e he
    subst he
    simp [SET_SUBSCRIPT, hm, hs, hi, hconv, THROW_IF_ERROR_OCCURED]
  · intro he
    subst he
    simp [SET_SUBSCRIPT, hm, hs, hi, hconv, THROW_IF_ERROR_OCCURED]

/-- C10 witness: with a conversion that yields `-1` and no pending error, Set
proceeds to the set-by-position step with index `-1` instead of raising. -/
theorem c10_set_minus_one_disambiguation_witness :
    SET_SUBSCRIPT envSeqMinusOne 5 0 1 none =
      SEQUENCE_SETITEM envSeqMinusOne 0 (-1) 5 none :=
  (c10_set_minus_one_disambiguation envSeqMinusOne 5 0 1 none none
      { sq_item := true, sq_ass_item := true } rfl rfl rfl rfl).2 rfl
